import Mathlib

/-!
Shallow embedding of the energy-monitor core of `esp32-cyd-energymon`.

Conventions of the embedding:
* Measurement values (`float kw`, where NaN means "absent") are modelled as
  `Option ℚ`: `none` is the absent/NaN reading, `some q` a present reading.
* RGB colors are modelled as 24-bit naturals `0xRRGGBB` at full precision
  (the device may quantize to RGB565; the claims are about which configured
  color is selected, which is unaffected).
* `uint32` timestamps are naturals reduced mod 2^32 where the C code does
  unsigned arithmetic; `uint8` pulse phases are naturals kept in 0..255 by
  the operations themselves.
* C cast `(int32_t)` of a float is truncation toward zero, modelled by
  `c_trunc` on ℚ.
* GUI-object guards (`if (!screen) return;`) and the render throttling at
  the top of `EnergyMonitorScreen::update` are elided: a modelled `update`
  step is one evaluation pass of the alarm logic, a modelled `alarmTick`
  is one run of the LVGL timer callback body.
-/

namespace EnergyMon

/-- 24-bit RGB color `0xRRGGBB`. -/
abbrev Rgb := Nat

/-- `lv_color_white()`. -/
def lv_color_white : Rgb := 0xFFFFFF

/-- `lv_color_make(255, 0, 0)`, the reset value of `alarmPeakColor`. -/
def lv_color_red : Rgb := 0xFF0000

/-- `lv_color_from_rgb_u32` (part_003:449-452): masks to 24 bits. -/
def lv_color_from_rgb_u32 (rgb : Nat) : Rgb := rgb % 16777216

/-- `EnergyCategoryColorConfig`: three ordered thresholds in milli-kW and
four tier colors. `threshold_mkw[i]` is modelled as fields `t0 t1 t2`. -/
structure EnergyCategoryColorConfig where
  t0 : Int
  t1 : Int
  t2 : Int
  color_good_rgb : Nat
  color_ok_rgb : Nat
  color_attention_rgb : Nat
  color_warning_rgb : Nat
deriving DecidableEq, Repr

/-- The alarm-relevant fields of `DeviceConfig`. -/
structure DeviceConfig where
  energy_solar_colors : EnergyCategoryColorConfig
  energy_home_colors : EnergyCategoryColorConfig
  energy_grid_colors : EnergyCategoryColorConfig
  energy_alarm_pulse_cycle_ms : Nat
  energy_alarm_pulse_peak_pct : Nat
  energy_alarm_clear_delay_ms : Nat
  energy_alarm_clear_hysteresis_mkw : Int
deriving DecidableEq, Repr

/-- C `(int32_t)` cast of a float value: truncation toward zero. -/
def c_trunc (x : ℚ) : Int := if 0 ≤ x then ⌊x⌋ else ⌈x⌉

/-- `kw_to_mkw_round` (part_003:63-66): scale kW to milli-kW and round
half away from zero via `(int32_t)(scaled >= 0 ? scaled + 0.5 : scaled - 0.5)`. -/
def kw_to_mkw_round (kw : ℚ) : Int :=
  let scaled := kw * 1000
  if 0 ≤ scaled then c_trunc (scaled + 1/2) else c_trunc (scaled - 1/2)

/-- `is_triggered_t2` (part_003:68-75): a null config or NaN value never
triggers; otherwise the rounded milli-kW measure must reach `t2`. -/
def is_triggered_t2 (cfg : Option EnergyCategoryColorConfig) (kw : Option ℚ)
    (use_abs : Bool) : Bool :=
  match cfg with
  | none => false
  | some c =>
    match kw with
    | none => false
    | some q =>
      let v_kw := if use_abs then |q| else q
      let mkw := kw_to_mkw_round v_kw
      decide (c.t2 ≤ mkw)

/-- `is_cleared_t2` (part_003:77-86): a null config or NaN value is always
cleared; otherwise the measure must fall strictly below `t2 - hysteresis`,
with that clear threshold clamped to ≥ 0 when `use_abs`. -/
def is_cleared_t2 (cfg : Option EnergyCategoryColorConfig) (kw : Option ℚ)
    (use_abs : Bool) (clear_hysteresis_mkw : Int) : Bool :=
  match cfg with
  | none => true
  | some c =>
    match kw with
    | none => true
    | some q =>
      let v_kw := if use_abs then |q| else q
      let mkw := kw_to_mkw_round v_kw
      let ct := c.t2 - clear_hysteresis_mkw
      let ct2 := if use_abs = true ∧ ct < 0 then 0 else ct
      decide (mkw < ct2)

/-- `pick_category_color` (part_003:454-473): classify a value against the
three thresholds and return the configured tier color (white when the
config is null or the value absent). -/
def pick_category_color (cfg : Option EnergyCategoryColorConfig) (kw : Option ℚ)
    (use_abs : Bool) : Rgb :=
  match cfg with
  | none => lv_color_white
  | some c =>
    match kw with
    | none => lv_color_white
    | some q =>
      let v_kw := if use_abs then |q| else q
      let mkw := kw_to_mkw_round v_kw
      let rgb :=
        if mkw < c.t0 then c.color_good_rgb
        else if mkw < c.t1 then c.color_ok_rgb
        else if mkw < c.t2 then c.color_attention_rgb
        else c.color_warning_rgb
      lv_color_from_rgb_u32 rgb

/-- The derived home measurement (part_003:496-499): `home_kw` starts as
NaN and becomes `solar + grid` only when both inputs are present. -/
def derive_home (solar_kw grid_kw : Option ℚ) : Option ℚ :=
  match solar_kw, grid_kw with
  | some s, some g => some (s + g)
  | _, _ => none

/-- The alarm states of `EnergyMonitorScreen` (part_002:43-47). -/
inductive AState where
  | Off
  | Active
  | Exiting
deriving DecidableEq, Repr

/-- The alarm-related mutable members of `EnergyMonitorScreen`. -/
structure AlarmSt where
  alarmState : AState
  alarmPhase : Nat
  alarmDir : Int
  alarmPeakColor : Rgb
  alarmClearStartMs : Nat
  alarmSolar : Bool
  alarmHome : Bool
  alarmGrid : Bool
deriving DecidableEq, Repr

/-- The member initializers: created `Off`, phase 0, direction +1, default
peak color, no pending clear timer, no category alarmed. -/
def initAlarmSt : AlarmSt :=
  { alarmState := AState.Off, alarmPhase := 0, alarmDir := 1,
    alarmPeakColor := lv_color_red, alarmClearStartMs := 0,
    alarmSolar := false, alarmHome := false, alarmGrid := false }

/-- The per-category alarm-flag update of `EnergyMonitorScreen::update`
(part_003:526-534): `prev ? !is_cleared_t2(...) : is_triggered_t2(...)`. -/
def next_flag (prev : Bool) (cfg : Option EnergyCategoryColorConfig) (kw : Option ℚ)
    (use_abs : Bool) (clear_hyst : Int) : Bool :=
  if prev then !(is_cleared_t2 cfg kw use_abs clear_hyst)
  else is_triggered_t2 cfg kw use_abs

/-- Inputs of one evaluation pass of `EnergyMonitorScreen::update`: the
borrowed `DeviceConfig` (null allowed), the snapshot values and `millis()`. -/
structure UpdateIn where
  config : Option DeviceConfig
  solar_kw : Option ℚ
  grid_kw : Option ℚ
  now : Nat
deriving DecidableEq, Repr

/-- `clear_hyst` (part_003:518-519): configured hysteresis (default 100)
clamped to ≥ 0. -/
def clearHystOf (cfgO : Option DeviceConfig) : Int :=
  let h := (cfgO.map DeviceConfig.energy_alarm_clear_hysteresis_mkw).getD 100
  if h < 0 then 0 else h

/-- `clear_delay` (part_003:556-557): configured delay (default 800)
clamped to ≤ 60000. -/
def clearDelayOf (cfgO : Option DeviceConfig) : Nat :=
  let d := (cfgO.map DeviceConfig.energy_alarm_clear_delay_ms).getD 800
  if 60000 < d then 60000 else d

/-- The three per-category flags computed at part_003:526-534 (solar and
home by magnitude, grid signed), all sharing the clamped hysteresis. -/
def newFlags (inp : UpdateIn) (s : AlarmSt) : Bool × Bool × Bool :=
  let home_kw := derive_home inp.solar_kw inp.grid_kw
  let ch := clearHystOf inp.config
  (next_flag s.alarmSolar (inp.config.map DeviceConfig.energy_solar_colors) inp.solar_kw true ch,
   next_flag s.alarmHome (inp.config.map DeviceConfig.energy_home_colors) home_kw true ch,
   next_flag s.alarmGrid (inp.config.map DeviceConfig.energy_grid_colors) inp.grid_kw false ch)

/-- `alarmWanted` (part_003:536): OR of the three new flags. -/
def alarmWantedAfter (inp : UpdateIn) (s : AlarmSt) : Bool :=
  let nf := newFlags inp s
  nf.1 || nf.2.1 || nf.2.2

/-- The peak-color latch chain (part_003:542-548): warning color of the
first newly alarmed category (solar, home, grid), else of the first
currently alarmed one. The null-config guard of each `&&` chain is hoisted:
with a null config every per-category config is null, so every guard fails
and the peak color is left unchanged, as in the source. -/
def latchPeak (cfgO : Option DeviceConfig) (s : AlarmSt) (nf : Bool × Bool × Bool) : Rgb :=
  match cfgO with
  | none => s.alarmPeakColor
  | some cfg =>
    if nf.1 && !s.alarmSolar then lv_color_from_rgb_u32 cfg.energy_solar_colors.color_warning_rgb
    else if nf.2.1 && !s.alarmHome then lv_color_from_rgb_u32 cfg.energy_home_colors.color_warning_rgb
    else if nf.2.2 && !s.alarmGrid then lv_color_from_rgb_u32 cfg.energy_grid_colors.color_warning_rgb
    else if nf.1 then lv_color_from_rgb_u32 cfg.energy_solar_colors.color_warning_rgb
    else if nf.2.1 then lv_color_from_rgb_u32 cfg.energy_home_colors.color_warning_rgb
    else if nf.2.2 then lv_color_from_rgb_u32 cfg.energy_grid_colors.color_warning_rgb
    else s.alarmPeakColor

/-- `uint32` wrap-around subtraction `(uint32_t)(a - b)`. -/
def usub32 (a b : Nat) : Nat :=
  (a % 4294967296 + 4294967296 - b % 4294967296) % 4294967296

/-- The top-level transition logic of `EnergyMonitorScreen::update`
(part_003:538-574), factored over precomputed flags `nf` so that the
state-machine part is free of rational arithmetic. Timer pause/resume calls
are elided (the timer is modelled by explicit `alarmTick` steps). -/
def updateCore (nf : Bool × Bool × Bool) (cfgO : Option DeviceConfig) (now : Nat)
    (s : AlarmSt) : AlarmSt :=
  if nf.1 || nf.2.1 || nf.2.2 then
    if s.alarmState = AState.Off ∨ s.alarmState = AState.Exiting then
      { alarmState := AState.Active, alarmPhase := s.alarmPhase, alarmDir := 1,
        alarmPeakColor := if s.alarmState = AState.Off then latchPeak cfgO s nf else s.alarmPeakColor,
        alarmClearStartMs := 0,
        alarmSolar := nf.1, alarmHome := nf.2.1, alarmGrid := nf.2.2 }
    else
      { s with alarmClearStartMs := 0,
               alarmSolar := nf.1, alarmHome := nf.2.1, alarmGrid := nf.2.2 }
  else
    let s1 := { s with alarmSolar := nf.1, alarmHome := nf.2.1, alarmGrid := nf.2.2 }
    if s.alarmState = AState.Active then
      let cd := clearDelayOf cfgO
      if cd = 0 then
        { s1 with alarmState := AState.Exiting, alarmDir := -1, alarmClearStartMs := 0 }
      else
        let cs := if s.alarmClearStartMs = 0 then now % 4294967296 else s.alarmClearStartMs
        if cd ≤ usub32 now cs then
          { s1 with alarmState := AState.Exiting, alarmDir := -1, alarmClearStartMs := 0 }
        else
          { s1 with alarmClearStartMs := cs }
    else s1

/-- One evaluation pass of the alarm logic of `EnergyMonitorScreen::update`
(part_003:475-582, alarm part): compute the per-category flags with
hysteresis, then run the top-level transition logic. -/
def update (inp : UpdateIn) (s : AlarmSt) : AlarmSt :=
  updateCore (newFlags inp s) inp.config inp.now s

/-- Cycle-period clamp of `alarmTick` (part_003:312-314). -/
def clampCycle (c : Nat) : Nat :=
  if c < 200 then 200 else if 10000 < c then 10000 else c

/-- `lroundf` on a non-negative argument: round half away from zero. -/
def roundQ (x : ℚ) : Int := ⌊x + 1/2⌋

/-- `step_active` of `alarmTick` (part_003:317-319):
`(uint8_t)lroundf(255*2*tick_ms / cycle_ms)`, minimum 1. -/
def tickStepActive (cfgO : Option DeviceConfig) (tick_ms : Nat) : Nat :=
  let cycle := clampCycle ((cfgO.map DeviceConfig.energy_alarm_pulse_cycle_ms).getD 2000)
  let step_f : ℚ := (255 * 2 * (tick_ms : ℚ)) / (cycle : ℚ)
  let sa := (roundQ step_f).toNat % 256
  if sa < 1 then 1 else sa

/-- `step_exit` of `alarmTick` (part_003:321-322): `step + step/2` in
`uint8`, floored at `step_active`. -/
def tickStepExit (sa : Nat) : Nat :=
  let se := (sa + sa / 2) % 256
  if se < sa then sa else se

/-- The phase/direction/state part of `alarmTick` (part_003:307-347) over a
precomputed active step `sa`. In `Off` the tick is a no-op; reaching 0 while
`Exiting` transitions to `Off` and resets phase, peak color and the pending
clear timestamp; reaching 255 flips the direction; reaching 0 otherwise
bounces the direction back to +1. -/
def tickCore (sa : Nat) (s : AlarmSt) : AlarmSt :=
  if s.alarmState = AState.Off then s
  else
    let step := if s.alarmState = AState.Exiting then tickStepExit sa else sa
    let next : Int := (s.alarmPhase : Int) + s.alarmDir * (step : Int)
    if 255 ≤ next then
      { s with alarmPhase := 255, alarmDir := -1 }
    else if next ≤ 0 then
      if s.alarmState = AState.Exiting then
        { s with alarmState := AState.Off, alarmPhase := 0,
                 alarmPeakColor := lv_color_red, alarmClearStartMs := 0 }
      else
        { s with alarmPhase := 0, alarmDir := 1 }
    else
      { s with alarmPhase := next.toNat }

/-- One run of the LVGL timer callback body `EnergyMonitorScreen::alarmTick`
(part_003:307-347). -/
def alarmTick (cfgO : Option DeviceConfig) (tick_ms : Nat) (s : AlarmSt) : AlarmSt :=
  tickCore (tickStepActive cfgO tick_ms) s

/-- States of the alarm controller reachable from startup by evaluation
passes (`update`) and animation ticks (`alarmTick`) with arbitrary inputs. -/
inductive Reachable : AlarmSt → Prop where
  | init : Reachable initAlarmSt
  | step_update (inp : UpdateIn) {s : AlarmSt} : Reachable s → Reachable (update inp s)
  | step_tick (cfgO : Option DeviceConfig) (tick_ms : Nat) {s : AlarmSt} :
      Reachable s → Reachable (alarmTick cfgO tick_ms s)

/-- `set_energy_defaults` (part_005:198-207): built-in thresholds
0.5/1.5/3.0 kW in milli-kW and the default tier colors. The source mutates
in place; modelled as the default record. -/
def set_energy_defaults : EnergyCategoryColorConfig :=
  { t0 := 500, t1 := 1500, t2 := 3000,
    color_good_rgb := 0x00FF00, color_ok_rgb := 0xFFFFFF,
    color_attention_rgb := 0xFFA500, color_warning_rgb := 0xFF0000 }

/-- `normalize_energy_thresholds` (part_005:209-219): clamp each threshold
to ≥ 0, then reset the whole category to the defaults if the clamped
thresholds are not monotone. -/
def normalize_energy_thresholds (cfg : EnergyCategoryColorConfig) : EnergyCategoryColorConfig :=
  let u0 := if cfg.t0 < 0 then 0 else cfg.t0
  let u1 := if cfg.t1 < 0 then 0 else cfg.t1
  let u2 := if cfg.t2 < 0 then 0 else cfg.t2
  if u0 > u1 ∨ u1 > u2 then set_energy_defaults
  else { cfg with t0 := u0, t1 := u1, t2 := u2 }

/-- JSON documents, for the ArduinoJson deserialization outcome. -/
inductive JsonVal where
  | jnull
  | jbool (b : Bool)
  | jnum (q : ℚ)
  | jstr (s : String)
  | jarr (elems : List JsonVal)
  | jobj (fields : List (String × JsonVal))

/-- Top-level key lookup: `doc.containsKey(k)` plus `doc[k]`; on a
non-object document every lookup misses. -/
def JsonVal.lookupTop : JsonVal → String → Option JsonVal
  | .jobj fields, k => fields.lookup k
  | _, _ => none

/-- `v.is<float>() || v.is<int>() || v.is<long>() || v.is<double>()`
followed by `v.as<float>()`: the numeric payload of a JSON value. -/
def JsonVal.numValue : JsonVal → Option ℚ
  | .jnum q => some q
  | _ => none

/-- `parse_float_from_payload` (mqtt_manager.cpp:18-55). The external
libc `strtod` fast path and the ArduinoJson `deserializeJson` call are
represented by their outcomes: `bare` is the number recovered by the
bare-token fast path (none on failure), `docResult` the parsed JSON
document (none on deserialization error). Returns (value, ok): `none`
models the NaN result. -/
def parse_float_from_payload (bare : Option ℚ) (docResult : Option JsonVal) :
    Option ℚ × Bool :=
  match bare with
  | some v => (some v, true)
  | none =>
    match docResult with
    | none => (none, false)
    | some d =>
      match d.numValue with
      | some q => (some q, true)
      | none => (none, false)

/-- `parse_value_using_path` (mqtt_manager.cpp:56-76): a trivial path
(null, empty or ".") defers to the bare parser; otherwise the path is a
top-level JSON key whose value must be numeric. All failures yield
(absent, false). -/
def parse_value_using_path (bare : Option ℚ) (docResult : Option JsonVal)
    (value_path : String) : Option ℚ × Bool :=
  if value_path = "" ∨ value_path = "." then
    parse_float_from_payload bare docResult
  else
    match docResult with
    | none => (none, false)
    | some d =>
      match d.lookupTop value_path with
      | none => (none, false)
      | some v =>
        match v.numValue with
        | some q => (some q, true)
        | none => (none, false)

/-! Demo configurations used by concrete evaluations: the default category
configuration (thresholds 500/1500/3000 mkW) with the alarm knobs of the
scenarios in the spec. -/

/-- Demo `DeviceConfig` with `clear_delay = 0`. -/
def cfgDelay0 : DeviceConfig :=
  { energy_solar_colors := set_energy_defaults, energy_home_colors := set_energy_defaults,
    energy_grid_colors := set_energy_defaults, energy_alarm_pulse_cycle_ms := 2000,
    energy_alarm_pulse_peak_pct := 100, energy_alarm_clear_delay_ms := 0,
    energy_alarm_clear_hysteresis_mkw := 200 }

/-- Demo `DeviceConfig` with `clear_delay = 800`. -/
def cfgDelay800 : DeviceConfig :=
  { cfgDelay0 with energy_alarm_clear_delay_ms := 800 }

lemma kw_to_mkw_round_five : kw_to_mkw_round 5 = 5000 := by
  norm_num [kw_to_mkw_round, c_trunc, Int.floor_eq_iff]

lemma kw_to_mkw_round_abs_five : kw_to_mkw_round |(5 : ℚ)| = 5000 := by
  rw [abs_of_nonneg (by norm_num)]
  norm_num [kw_to_mkw_round, c_trunc, Int.floor_eq_iff]

lemma kw_to_mkw_round_abs_two : kw_to_mkw_round |(2 : ℚ)| = 2000 := by
  rw [abs_of_nonneg (by norm_num)]
  norm_num [kw_to_mkw_round, c_trunc, Int.floor_eq_iff]

lemma kw_to_mkw_round_abs_zero : kw_to_mkw_round |(0 : ℚ)| = 0 := by
  rw [abs_of_nonneg (by norm_num)]
  norm_num [kw_to_mkw_round, c_trunc, Int.floor_eq_iff]

lemma kw_to_mkw_round_zero : kw_to_mkw_round 0 = 0 := by
  norm_num [kw_to_mkw_round, c_trunc, Int.floor_eq_iff]

lemma kw_to_mkw_round_abs_31_10 : kw_to_mkw_round |(31 / 10 : ℚ)| = 3100 := by
  rw [abs_of_nonneg (by norm_num)]
  norm_num [kw_to_mkw_round, c_trunc, Int.floor_eq_iff]

lemma kw_to_mkw_round_abs_29_10 : kw_to_mkw_round |(29 / 10 : ℚ)| = 2900 := by
  rw [abs_of_nonneg (by norm_num)]
  norm_num [kw_to_mkw_round, c_trunc, Int.floor_eq_iff]

lemma is_triggered_five :
    is_triggered_t2 (some set_energy_defaults) (some 5) true = true := by
  simp [is_triggered_t2, kw_to_mkw_round_abs_five, kw_to_mkw_round_five, set_energy_defaults]

lemma is_triggered_zero_abs :
    is_triggered_t2 (some set_energy_defaults) (some 0) true = false := by
  simp [is_triggered_t2, kw_to_mkw_round_abs_zero, kw_to_mkw_round_zero, set_energy_defaults]

lemma is_triggered_zero_signed :
    is_triggered_t2 (some set_energy_defaults) (some 0) false = false := by
  simp [is_triggered_t2, kw_to_mkw_round_zero, set_energy_defaults]

lemma is_cleared_zero_abs :
    is_cleared_t2 (some set_energy_defaults) (some 0) true 200 = true := by
  simp [is_cleared_t2, kw_to_mkw_round_abs_zero, kw_to_mkw_round_zero, set_energy_defaults]

lemma is_triggered_31_10 :
    is_triggered_t2 (some set_energy_defaults) (some (31 / 10)) true = true := by
  simp [is_triggered_t2, kw_to_mkw_round_abs_31_10, set_energy_defaults]

lemma is_cleared_29_10 :
    is_cleared_t2 (some set_energy_defaults) (some (29 / 10)) true 200 = false := by
  simp [is_cleared_t2, kw_to_mkw_round_abs_29_10, set_energy_defaults]

lemma is_cleared_31_10 :
    is_cleared_t2 (some set_energy_defaults) (some (31 / 10)) true 200 = false := by
  simp [is_cleared_t2, kw_to_mkw_round_abs_31_10, set_energy_defaults]

/-- C1: for monotone thresholds and a present value, `pick_category_color`
returns the good color below `t0`, the ok color on `[t0, t1)`, the
attention color on `[t1, t2)` and the warning color from `t2` up, where the
measure is the rounded milli-kW magnitude (or signed value); boundaries
land in the higher tier. -/
theorem c1_pick_category_color_tiers (c : EnergyCategoryColorConfig) (v : ℚ)
    (use_abs : Bool) (h01 : c.t0 ≤ c.t1) (h12 : c.t1 ≤ c.t2) :
    (kw_to_mkw_round (if use_abs then |v| else v) < c.t0 →
      pick_category_color (some c) (some v) use_abs = lv_color_from_rgb_u32 c.color_good_rgb) ∧
    (c.t0 ≤ kw_to_mkw_round (if use_abs then |v| else v) ∧
        kw_to_mkw_round (if use_abs then |v| else v) < c.t1 →
      pick_category_color (some c) (some v) use_abs = lv_color_from_rgb_u32 c.color_ok_rgb) ∧
    (c.t1 ≤ kw_to_mkw_round (if use_abs then |v| else v) ∧
        kw_to_mkw_round (if use_abs then |v| else v) < c.t2 →
      pick_category_color (some c) (some v) use_abs = lv_color_from_rgb_u32 c.color_attention_rgb) ∧
    (c.t2 ≤ kw_to_mkw_round (if use_abs then |v| else v) →
      pick_category_color (some c) (some v) use_abs = lv_color_from_rgb_u32 c.color_warning_rgb) := by
  refine ⟨fun h => ?_, fun h => ?_, fun h => ?_, fun h => ?_⟩ <;>
    · simp only [pick_category_color]
      generalize hm : kw_to_mkw_round (if use_abs = true then |v| else v) = m at h ⊢
      split_ifs <;> first | rfl | (exfalso; omega)

/-- C1 witness: with the default thresholds, 2 kW (measure 2000 mkW) is in
the attention tier. -/
theorem c1_pick_category_color_tiers_witness :
    set_energy_defaults.t0 ≤ set_energy_defaults.t1 ∧
    set_energy_defaults.t1 ≤ set_energy_defaults.t2 ∧
    pick_category_color (some set_energy_defaults) (some 2) true =
      lv_color_from_rgb_u32 set_energy_defaults.color_attention_rgb := by
  refine ⟨by decide, by decide, ?_⟩
  exact (c1_pick_category_color_tiers set_energy_defaults 2 true (by decide) (by decide)).2.2.1
    (by rw [if_pos rfl, kw_to_mkw_round_abs_two]; exact ⟨by decide, by decide⟩)

/-- C2: an alarmed category stays alarmed exactly until the measure falls
strictly below `t2 - clear_hysteresis` (that clear threshold clamped to
≥ 0 for magnitude-based categories); with t2 = 3000 mkW and hysteresis 200,
the value sequence 3.1, 2.9, 3.1 kW keeps the flag true on every tick. -/
theorem c2_alarm_flag_hysteresis :
    (∀ (c : EnergyCategoryColorConfig) (v : ℚ) (use_abs : Bool) (hyst : Int),
      next_flag true (some c) (some v) use_abs hyst = false ↔
        kw_to_mkw_round (if use_abs then |v| else v) <
          (if use_abs = true ∧ c.t2 - hyst < 0 then 0 else c.t2 - hyst)) ∧
    (next_flag false (some set_energy_defaults) (some (31 / 10)) true 200 = true ∧
     next_flag true (some set_energy_defaults) (some (29 / 10)) true 200 = true ∧
     next_flag true (some set_energy_defaults) (some (31 / 10)) true 200 = true) := by
  constructor
  · intro c v use_abs hyst
    simp [next_flag, is_cleared_t2]
  · exact ⟨by simp [next_flag, is_triggered_31_10],
      by simp [next_flag, is_cleared_29_10],
      by simp [next_flag, is_cleared_31_10]⟩

/-- C7: the derived home measurement is `solar + grid` exactly when both
are present and absent otherwise; in particular solar absent with
grid = 1.2 yields home absent. -/
theorem c7_derive_home_absence :
    (∀ a b : ℚ, derive_home (some a) (some b) = some (a + b)) ∧
    (∀ g : Option ℚ, derive_home none g = none) ∧
    (∀ s : Option ℚ, derive_home s none = none) ∧
    derive_home none (some (6 / 5)) = none := by
  refine ⟨fun a b => rfl, fun g => rfl, fun s => ?_, rfl⟩
  cases s <;> rfl

/-- C10: an absent (NaN) measurement never yields a raised per-category
flag: if the flag was off it stays off, and if it was on it turns off on
that tick regardless of the configured hysteresis. -/
theorem c10_absent_clears_flag (prev : Bool) (cfg : Option EnergyCategoryColorConfig)
    (use_abs : Bool) (hyst : Int) :
    next_flag prev cfg none use_abs hyst = false := by
  cases prev <;> cases cfg <;> simp [next_flag, is_triggered_t2, is_cleared_t2]

/-- C9 counterexample: the persisted thresholds (-1, -5, 3) violate the
monotone order t0 ≤ t1, yet `normalize_energy_thresholds` does not reset
the category to the built-in defaults: the negative values are clamped to
0 first, the clamped triple (0, 0, 3) passes the monotonicity check, and
the category keeps its own colors. -/
theorem c9_normalize_counterexample :
    ¬(EnergyCategoryColorConfig.t0 ⟨-1, -5, 3, 1, 2, 3, 4⟩ ≤
        EnergyCategoryColorConfig.t1 ⟨-1, -5, 3, 1, 2, 3, 4⟩) ∧
    normalize_energy_thresholds ⟨-1, -5, 3, 1, 2, 3, 4⟩ ≠ set_energy_defaults ∧
    normalize_energy_thresholds ⟨-1, -5, 3, 1, 2, 3, 4⟩ = ⟨0, 0, 3, 1, 2, 3, 4⟩ := by
  refine ⟨by decide, by decide, by decide⟩

/-- C9 amended: `normalize_energy_thresholds` first clamps each threshold
to ≥ 0 and resets the whole category to the built-in defaults (500, 1500,
3000 mkW; good green 0x00FF00, ok white 0xFFFFFF, attention orange
0xFFA500, warning red 0xFF0000) exactly when the *clamped* thresholds
violate t0 ≤ t1 ≤ t2; in every case the result satisfies t0 ≤ t1 ≤ t2. -/
theorem c9_normalize_amended (cfg : EnergyCategoryColorConfig) :
    ((normalize_energy_thresholds cfg).t0 ≤ (normalize_energy_thresholds cfg).t1 ∧
     (normalize_energy_thresholds cfg).t1 ≤ (normalize_energy_thresholds cfg).t2) ∧
    (max cfg.t0 0 > max cfg.t1 0 ∨ max cfg.t1 0 > max cfg.t2 0 →
      normalize_energy_thresholds cfg =
        { t0 := 500, t1 := 1500, t2 := 3000,
          color_good_rgb := 0x00FF00, color_ok_rgb := 0xFFFFFF,
          color_attention_rgb := 0xFFA500, color_warning_rgb := 0xFF0000 }) ∧
    (max cfg.t0 0 ≤ max cfg.t1 0 ∧ max cfg.t1 0 ≤ max cfg.t2 0 →
      normalize_energy_thresholds cfg =
        { cfg with t0 := max cfg.t0 0, t1 := max cfg.t1 0, t2 := max cfg.t2 0 }) := by
  have e0 : (if cfg.t0 < 0 then 0 else cfg.t0) = max cfg.t0 0 := by
    rcases le_total cfg.t0 0 with h | h <;> simp [max_def] <;> omega
  have e1 : (if cfg.t1 < 0 then 0 else cfg.t1) = max cfg.t1 0 := by
    rcases le_total cfg.t1 0 with h | h <;> simp [max_def] <;> omega
  have e2 : (if cfg.t2 < 0 then 0 else cfg.t2) = max cfg.t2 0 := by
    rcases le_total cfg.t2 0 with h | h <;> simp [max_def] <;> omega
  simp only [normalize_energy_thresholds, e0, e1, e2, set_energy_defaults]
  split_ifs with h
  · exact ⟨⟨by decide, by decide⟩, fun _ => rfl, fun hc => by omega⟩
  · push_neg at h
    exact ⟨⟨h.1, h.2⟩, fun hc => by omega, fun _ => rfl⟩

/-- C9 amended witness: the disordered clamped triple (5, 1, 3) resets the
category; the ordered clamped triple from (-1, -5, 3) does not. -/
theorem c9_normalize_amended_witness :
    normalize_energy_thresholds ⟨5, 1, 3, 1, 2, 3, 4⟩ =
      { t0 := 500, t1 := 1500, t2 := 3000,
        color_good_rgb := 0x00FF00, color_ok_rgb := 0xFFFFFF,
        color_attention_rgb := 0xFFA500, color_warning_rgb := 0xFF0000 } ∧
    normalize_energy_thresholds ⟨-1, -5, 3, 9, 9, 9, 9⟩ =
      { t0 := 0, t1 := 0, t2 := 3,
        color_good_rgb := 9, color_ok_rgb := 9,
        color_attention_rgb := 9, color_warning_rgb := 9 } := by
  constructor
  · exact (c9_normalize_amended ⟨5, 1, 3, 1, 2, 3, 4⟩).2.1 (by decide)
  · exact (c9_normalize_amended ⟨-1, -5, 3, 9, 9, 9, 9⟩).2.2 (by decide)

/-- C8: with a non-trivial extraction key, the parser succeeds exactly when
the payload deserializes to a JSON document whose top-level field at that
exact key is numeric, in which case it returns that number with the success
flag true; in every other case it returns absent with the flag false (the
function is total, so it never throws or aborts). -/
theorem c8_parse_value_using_path (bare : Option ℚ) (docResult : Option JsonVal)
    (value_path : String) (hne : value_path ≠ "") (hnd : value_path ≠ ".") :
    ((parse_value_using_path bare docResult value_path).2 = true ↔
      ∃ d q, docResult = some d ∧ d.lookupTop value_path = some (JsonVal.jnum q)) ∧
    (∀ d q, docResult = some d → d.lookupTop value_path = some (JsonVal.jnum q) →
      parse_value_using_path bare docResult value_path = (some q, true)) ∧
    ((parse_value_using_path bare docResult value_path).2 = false →
      (parse_value_using_path bare docResult value_path).1 = none) := by
  have hcond : ¬(value_path = "" ∨ value_path = ".") := by
    rintro (h | h) <;> [exact hne h; exact hnd h]
  rcases docResult with _ | d
  · simp [parse_value_using_path, hcond]
  · rcases hl : d.lookupTop value_path with _ | v
    · simp [parse_value_using_path, hcond, hl]
      rintro e q rfl hl2
      rw [hl] at hl2
      simp at hl2
    · rcases v with _ | b | q | s | es | fs <;>
        simp [parse_value_using_path, hcond, hl, JsonVal.numValue] <;>
        · rintro e q2 rfl hl2
          rw [hl] at hl2
          first
          | (injection hl2 with h3; exact JsonVal.jnum.inj h3)
          | simp at hl2

/-- C8 witness: extracting key "power" from the document
`\x7b"power": 1.2, "other": true\x7d` succeeds with 1.2 = 6/5. -/
theorem c8_parse_value_using_path_witness :
    "power" ≠ "" ∧ ("power" : String) ≠ "." ∧
    parse_value_using_path none
      (some (JsonVal.jobj [("power", JsonVal.jnum (6 / 5)), ("other", JsonVal.jbool true)]))
      "power" = (some (6 / 5), true) := by
  refine ⟨by decide, by decide, ?_⟩
  exact (c8_parse_value_using_path none
      (some (JsonVal.jobj [("power", JsonVal.jnum (6 / 5)), ("other", JsonVal.jbool true)]))
      "power" (by decide) (by decide)).2.1
    (JsonVal.jobj [("power", JsonVal.jnum (6 / 5)), ("other", JsonVal.jbool true)])
    (6 / 5) rfl (by simp [JsonVal.lookupTop, List.lookup])

lemma is_cleared_zero_signed :
    is_cleared_t2 (some set_energy_defaults) (some 0) false 200 = true := by
  simp [is_cleared_t2, kw_to_mkw_round_zero, set_energy_defaults]

/-- A triggering evaluation pass: solar 5 kW, grid 0 kW at time `t`. -/
def inpTrig (t : Nat) : UpdateIn := ⟨some cfgDelay800, some 5, some 0, t⟩

/-- A non-triggering evaluation pass: solar 0 kW, grid 0 kW at time `t`. -/
def inpFalse (t : Nat) : UpdateIn := ⟨some cfgDelay800, some 0, some 0, t⟩

/-- A state mid-fade: `Exiting` at phase 100, direction -1. -/
def stExitDemo : AlarmSt :=
  ⟨AState.Exiting, 100, -1, 0x123456, 0, false, false, false⟩

/-- An `Active` state whose clear-delay timer was recorded at time 1. -/
def stTimerDemo : AlarmSt :=
  ⟨AState.Active, 0, 1, 0xFF0000, 1, false, false, false⟩

lemma nf_inpTrig (t : Nat) (s : AlarmSt) (h1 : s.alarmSolar = false)
    (h2 : s.alarmHome = false) (h3 : s.alarmGrid = false) :
    newFlags (inpTrig t) s = (true, true, false) := by
  simp [newFlags, inpTrig, cfgDelay800, cfgDelay0, derive_home, clearHystOf, next_flag,
    h1, h2, h3, is_triggered_five, is_triggered_zero_signed]

lemma nf_inpFalse (t : Nat) (s : AlarmSt) :
    newFlags (inpFalse t) s = (false, false, false) := by
  cases h1 : s.alarmSolar <;> cases h2 : s.alarmHome <;> cases h3 : s.alarmGrid <;>
    simp [newFlags, inpFalse, cfgDelay800, cfgDelay0, derive_home, clearHystOf, next_flag,
      h1, h2, h3, is_triggered_zero_abs, is_triggered_zero_signed,
      is_cleared_zero_abs, is_cleared_zero_signed]

lemma usub32_mod_self (a : Nat) : usub32 a (a % 4294967296) = 0 := by
  unfold usub32
  omega

/-- Intermediate state of the C4 trace: the alarm latched by the trigger at
time 0. -/
def stAfterTrig : AlarmSt := ⟨AState.Active, 0, 1, 0xFF0000, 0, true, true, false⟩

/-- Intermediate state of the C4 trace: after the first non-alarmed pass at
time 0 the clear timestamp is still the sentinel 0. -/
def stAfterFalse0 : AlarmSt := ⟨AState.Active, 0, 1, 0xFF0000, 0, false, false, false⟩

lemma upd_trig0_init : update (inpTrig 0) initAlarmSt = stAfterTrig := by
  rw [update, nf_inpTrig 0 initAlarmSt rfl rfl rfl]
  decide

lemma upd_false0_stAfterTrig : update (inpFalse 0) stAfterTrig = stAfterFalse0 := by
  rw [update, nf_inpFalse 0 stAfterTrig]
  decide

lemma upd_false800_stAfterFalse0 :
    update (inpFalse 800) stAfterFalse0 =
      ⟨AState.Active, 0, 1, 0xFF0000, 800, false, false, false⟩ := by
  rw [update, nf_inpFalse 800 stAfterFalse0]
  decide

/-- C3 counterexample: in state `Exiting` with direction -1, a tick on
which `alarm_wanted` is true transitions back to `Active` but resets the
direction to +1, so the pulse direction is NOT unchanged as the claim
states (the peak color is indeed unchanged). -/
theorem c3_reassert_counterexample :
    stExitDemo.alarmState = AState.Exiting ∧ stExitDemo.alarmDir = -1 ∧
    alarmWantedAfter (inpTrig 50) stExitDemo = true ∧
    (update (inpTrig 50) stExitDemo).alarmState = AState.Active ∧
    (update (inpTrig 50) stExitDemo).alarmDir = 1 ∧
    (update (inpTrig 50) stExitDemo).alarmDir ≠ stExitDemo.alarmDir := by
  have h := nf_inpTrig 50 stExitDemo rfl rfl rfl
  refine ⟨rfl, rfl, ?_, ?_, ?_, ?_⟩
  · rw [alarmWantedAfter, h]; decide
  · rw [update, h]; decide
  · rw [update, h]; decide
  · rw [update, h]; decide

/-- C3 amended: if the state is `Exiting` and `alarm_wanted` evaluates true
on a tick, the controller transitions back to `Active` with the pulse
direction reset to +1 (the pulse resumes climbing) and the latched peak
color unchanged (no relatch). -/
theorem c3_reassert_amended (inp : UpdateIn) (s : AlarmSt)
    (hex : s.alarmState = AState.Exiting) (hw : alarmWantedAfter inp s = true) :
    (update inp s).alarmState = AState.Active ∧ (update inp s).alarmDir = 1 ∧
    (update inp s).alarmPeakColor = s.alarmPeakColor := by
  simp only [alarmWantedAfter] at hw
  simp [update, updateCore, hw, hex]

/-- C3 amended witness: the reassert-during-exit scenario at phase 100,
direction -1: back to `Active`, direction +1, peak color kept. -/
theorem c3_reassert_amended_witness :
    (update (inpTrig 50) stExitDemo).alarmState = AState.Active ∧
    (update (inpTrig 50) stExitDemo).alarmDir = 1 ∧
    (update (inpTrig 50) stExitDemo).alarmPeakColor = stExitDemo.alarmPeakColor := by
  exact c3_reassert_amended (inpTrig 50) stExitDemo rfl
    (by rw [alarmWantedAfter, nf_inpTrig 50 stExitDemo rfl rfl rfl]; decide)

/-- C4 counterexample: with clear_delay = 800 ms, the alarm latches at
time 0 and the first tick observed with `alarm_wanted` false is also at
time 0. Since 0 is the sentinel for "no timer", that tick fails to start
the clear-delay timer: at the next non-alarmed tick at time 800 — elapsed
800 ≥ 800 since the first false tick — the state is still `Active`, not
`Exiting` as the claim requires. -/
theorem c4_clear_delay_counterexample :
    (update (inpTrig 0) initAlarmSt).alarmState = AState.Active ∧
    alarmWantedAfter (inpFalse 0) (update (inpTrig 0) initAlarmSt) = false ∧
    (update (inpFalse 0) (update (inpTrig 0) initAlarmSt)).alarmClearStartMs = 0 ∧
    alarmWantedAfter (inpFalse 800) (update (inpFalse 0) (update (inpTrig 0) initAlarmSt)) = false ∧
    clearDelayOf (some cfgDelay800) = 800 ∧
    (update (inpFalse 800) (update (inpFalse 0) (update (inpTrig 0) initAlarmSt))).alarmState =
      AState.Active ∧
    (update (inpFalse 800) (update (inpFalse 0) (update (inpTrig 0) initAlarmSt))).alarmState ≠
      AState.Exiting := by
  rw [upd_trig0_init, upd_false0_stAfterTrig, upd_false800_stAfterFalse0]
  refine ⟨rfl, ?_, rfl, ?_, by decide, rfl, by decide⟩
  · rw [alarmWantedAfter, nf_inpFalse 0 stAfterTrig]; decide
  · rw [alarmWantedAfter, nf_inpFalse 800 stAfterFalse0]; decide

/-- C4 amended: when `alarm_wanted` is false while `Active`: with
clear_delay 0 the state goes to `Exiting` (direction -1) on that tick;
with a positive delay and no recorded timer, the tick records its own
(wrapped) timestamp — a tick at timestamp 0 therefore records the "no
timer" sentinel and does not start the timer — and stays `Active`; with a
recorded nonzero timer start, the state goes to `Exiting` exactly on a
tick whose elapsed `uint32` time since that start reaches the delay.
Whenever `alarm_wanted` is true the pending timer is discarded and the
state is `Active`, so no `Exiting` transition occurs. -/
theorem c4_clear_delay_amended (inp : UpdateIn) (s : AlarmSt) :
    (alarmWantedAfter inp s = false → s.alarmState = AState.Active →
      ((clearDelayOf inp.config = 0 →
          (update inp s).alarmState = AState.Exiting ∧ (update inp s).alarmDir = -1 ∧
          (update inp s).alarmClearStartMs = 0) ∧
       (0 < clearDelayOf inp.config → s.alarmClearStartMs = 0 →
          (update inp s).alarmState = AState.Active ∧
          (update inp s).alarmClearStartMs = inp.now % 4294967296) ∧
       (s.alarmClearStartMs ≠ 0 → 0 < clearDelayOf inp.config →
          ((clearDelayOf inp.config ≤ usub32 inp.now s.alarmClearStartMs →
             (update inp s).alarmState = AState.Exiting ∧ (update inp s).alarmDir = -1 ∧
             (update inp s).alarmClearStartMs = 0) ∧
           (usub32 inp.now s.alarmClearStartMs < clearDelayOf inp.config →
             (update inp s).alarmState = AState.Active ∧
             (update inp s).alarmClearStartMs = s.alarmClearStartMs))))) ∧
    (alarmWantedAfter inp s = true →
      (update inp s).alarmClearStartMs = 0 ∧ (update inp s).alarmState = AState.Active) := by
  constructor
  · intro hw hA
    simp only [alarmWantedAfter] at hw
    simp only [update, updateCore, hw, hA]
    refine ⟨fun h0 => ?_, fun hpos hcs => ?_, fun hcs hpos => ⟨fun hle => ?_, fun hlt => ?_⟩⟩
    · rw [if_pos h0]
      exact ⟨rfl, rfl, rfl⟩
    · rw [if_neg (show ¬clearDelayOf inp.config = 0 by omega), if_pos hcs, usub32_mod_self,
        if_neg (show ¬clearDelayOf inp.config ≤ 0 by omega)]
      exact ⟨rfl, rfl⟩
    · rw [if_neg (show ¬clearDelayOf inp.config = 0 by omega), if_neg hcs, if_pos hle]
      exact ⟨rfl, rfl, rfl⟩
    · rw [if_neg (show ¬clearDelayOf inp.config = 0 by omega), if_neg hcs,
        if_neg (show ¬clearDelayOf inp.config ≤ usub32 inp.now s.alarmClearStartMs by omega)]
      exact ⟨rfl, rfl⟩
  · intro hw
    simp only [alarmWantedAfter] at hw
    simp only [update, updateCore, hw]
    cases hs : s.alarmState <;> simp [hs]

/-- C4 amended witness: timer recorded at time 1, delay 800: a tick at
time 800 (elapsed 799) stays `Active`, a tick at time 801 (elapsed 800)
transitions to `Exiting`; and with delay 0 the `Exiting` transition is
immediate. -/
theorem c4_clear_delay_amended_witness :
    (update (inpFalse 800) stTimerDemo).alarmState = AState.Active ∧
    (update (inpFalse 801) stTimerDemo).alarmState = AState.Exiting ∧
    (update (inpFalse 801) stTimerDemo).alarmDir = -1 := by
  have hw800 : alarmWantedAfter (inpFalse 800) stTimerDemo = false := by
    rw [alarmWantedAfter, nf_inpFalse 800 stTimerDemo]; decide
  have hw801 : alarmWantedAfter (inpFalse 801) stTimerDemo = false := by
    rw [alarmWantedAfter, nf_inpFalse 801 stTimerDemo]; decide
  have h800 :=
    ((((c4_clear_delay_amended (inpFalse 800) stTimerDemo).1 hw800 rfl).2.2
      (by decide) (by decide)).2 (by decide)).1
  have h801 :=
    ((((c4_clear_delay_amended (inpFalse 801) stTimerDemo).1 hw801 rfl).2.2
      (by decide) (by decide)).1 (by decide))
  exact ⟨h800, h801.1, h801.2.1⟩

lemma update_flags_eq (inp : UpdateIn) (s : AlarmSt) :
    (update inp s).alarmSolar = (newFlags inp s).1 ∧
    (update inp s).alarmHome = (newFlags inp s).2.1 ∧
    (update inp s).alarmGrid = (newFlags inp s).2.2 := by
  rw [update]
  unfold updateCore
  dsimp only
  split_ifs <;> exact ⟨rfl, rfl, rfl⟩

lemma update_exiting_wanted_false (inp : UpdateIn) (s : AlarmSt) :
    (update inp s).alarmState = AState.Exiting →
      ((newFlags inp s).1 || (newFlags inp s).2.1 || (newFlags inp s).2.2) = false := by
  rw [update]
  unfold updateCore
  dsimp only
  split_ifs with h1 h2 h3 h4 h5 <;> intro hst <;> simp_all

lemma update_exiting_flags (inp : UpdateIn) (s : AlarmSt) :
    (update inp s).alarmState = AState.Exiting →
      (update inp s).alarmSolar = false ∧ (update inp s).alarmHome = false ∧
      (update inp s).alarmGrid = false := by
  intro hst
  have hw := update_exiting_wanted_false inp s hst
  have hf := update_flags_eq inp s
  obtain ⟨hwa, hwb, hwc⟩ : (newFlags inp s).1 = false ∧ (newFlags inp s).2.1 = false ∧
      (newFlags inp s).2.2 = false := by
    cases ha : (newFlags inp s).1 <;> cases hb : (newFlags inp s).2.1 <;>
      cases hc : (newFlags inp s).2.2 <;> simp_all
  exact ⟨hf.1.trans hwa, hf.2.1.trans hwb, hf.2.2.trans hwc⟩

lemma update_phase (inp : UpdateIn) (s : AlarmSt) :
    (update inp s).alarmPhase = s.alarmPhase := by
  rw [update]
  unfold updateCore
  dsimp only
  split_ifs <;> rfl

lemma tickCore_flags (sa : Nat) (s : AlarmSt) :
    (tickCore sa s).alarmSolar = s.alarmSolar ∧
    (tickCore sa s).alarmHome = s.alarmHome ∧
    (tickCore sa s).alarmGrid = s.alarmGrid := by
  unfold tickCore
  dsimp only
  split_ifs <;> exact ⟨rfl, rfl, rfl⟩

lemma tickCore_exiting_src (sa : Nat) (s : AlarmSt) :
    (tickCore sa s).alarmState = AState.Exiting → s.alarmState = AState.Exiting := by
  unfold tickCore
  dsimp only
  split_ifs with h1 h2 h3 h4 <;> intro hst <;> first | exact hst | simp_all

lemma tickCore_phase_le (sa : Nat) (s : AlarmSt) (h : s.alarmPhase ≤ 255) :
    (tickCore sa s).alarmPhase ≤ 255 := by
  unfold tickCore
  dsimp only
  split_ifs with h1 h2 h3 h4 <;> first | omega | (simp only []; omega)

/-- Every reachable controller state keeps the `uint8` pulse phase within
0..255. -/
lemma reachable_phase_le {s : AlarmSt} (h : Reachable s) : s.alarmPhase ≤ 255 := by
  induction h with
  | init => decide
  | @step_update inp s hr ih => rw [update_phase]; exact ih
  | @step_tick cfgO tick_ms s hr ih => exact tickCore_phase_le (tickStepActive cfgO tick_ms) s ih

/-- Invariant: in every reachable `Exiting` state, all three per-category
alarm flags are false (the state only enters or stays `Exiting` on passes
where `alarm_wanted` is false, and ticks never touch the flags). -/
lemma reachable_exiting_flags {s : AlarmSt} (h : Reachable s) :
    s.alarmState = AState.Exiting →
      s.alarmSolar = false ∧ s.alarmHome = false ∧ s.alarmGrid = false := by
  induction h with
  | init => intro hex; exact absurd hex (by decide)
  | @step_update inp s hr ih => exact update_exiting_flags inp s
  | @step_tick cfgO tick_ms s hr ih =>
    intro hex
    have hsrc := tickCore_exiting_src (tickStepActive cfgO tick_ms) s hex
    have hfl := ih hsrc
    have hpr := tickCore_flags (tickStepActive cfgO tick_ms) s
    exact ⟨hpr.1.trans hfl.1, hpr.2.1.trans hfl.2.1, hpr.2.2.trans hfl.2.2⟩

lemma one_le_tickStepActive (cfgO : Option DeviceConfig) (tick_ms : Nat) :
    1 ≤ tickStepActive cfgO tick_ms := by
  simp only [tickStepActive]
  split_ifs <;> omega

lemma one_le_tickStepExit (sa : Nat) (h : 1 ≤ sa) : 1 ≤ tickStepExit sa := by
  simp only [tickStepExit]
  split_ifs <;> omega

/-- C5: from a reachable `Exiting` state with direction -1, an animation
tick transitions to `Off` exactly when the phase would reach 0 (phase ≤
fade step); the tick can only stay in `Exiting` or terminate in `Off`, the
direction never bounces back to +1, and on the `Off` transition the phase
is reset to 0, the peak color to the default red, the pending clear
timestamp to 0, and all three per-category alarm flags are false. -/
theorem c5_exiting_terminates (cfgO : Option DeviceConfig) (tick_ms : Nat) (s : AlarmSt)
    (hre : Reachable s) (hex : s.alarmState = AState.Exiting) (hdir : s.alarmDir = -1) :
    ((alarmTick cfgO tick_ms s).alarmState = AState.Off ↔
        s.alarmPhase ≤ tickStepExit (tickStepActive cfgO tick_ms)) ∧
    ((alarmTick cfgO tick_ms s).alarmState = AState.Off ∨
        (alarmTick cfgO tick_ms s).alarmState = AState.Exiting) ∧
    (alarmTick cfgO tick_ms s).alarmDir = -1 ∧
    ((alarmTick cfgO tick_ms s).alarmState = AState.Off →
      (alarmTick cfgO tick_ms s).alarmPhase = 0 ∧
      (alarmTick cfgO tick_ms s).alarmPeakColor = lv_color_red ∧
      (alarmTick cfgO tick_ms s).alarmClearStartMs = 0 ∧
      (alarmTick cfgO tick_ms s).alarmSolar = false ∧
      (alarmTick cfgO tick_ms s).alarmHome = false ∧
      (alarmTick cfgO tick_ms s).alarmGrid = false) := by
  have hph := reachable_phase_le hre
  have hfl := reachable_exiting_flags hre hex
  have hsa := one_le_tickStepActive cfgO tick_ms
  have hse := one_le_tickStepExit _ hsa
  rw [alarmTick]
  unfold tickCore
  dsimp only
  rw [if_neg (show ¬s.alarmState = AState.Off by rw [hex]; decide), if_pos hex, hdir]
  rw [if_neg (show ¬(255 : Int) ≤ (s.alarmPhase : Int) +
      -1 * ((tickStepExit (tickStepActive cfgO tick_ms) : Nat) : Int) by omega)]
  rcases le_or_lt ((s.alarmPhase : Int) +
      -1 * ((tickStepExit (tickStepActive cfgO tick_ms) : Nat) : Int)) 0 with h0 | h0
  · rw [if_pos h0, if_pos hex]
    exact ⟨⟨fun _ => by omega, fun _ => rfl⟩, Or.inl rfl, rfl,
      fun _ => ⟨rfl, rfl, rfl, hfl.1, hfl.2.1, hfl.2.2⟩⟩
  · rw [if_neg (by omega)]
    refine ⟨⟨fun hof => absurd (hex.symm.trans hof) (by decide),
        fun hle => absurd hle (by omega)⟩, Or.inr hex, rfl,
      fun hof => absurd (hex.symm.trans hof) (by decide)⟩

lemma nf_trigD0 (s : AlarmSt) (h1 : s.alarmSolar = false)
    (h2 : s.alarmHome = false) (h3 : s.alarmGrid = false) :
    newFlags ⟨some cfgDelay0, some 5, some 0, 10⟩ s = (true, true, false) := by
  simp [newFlags, cfgDelay0, derive_home, clearHystOf, next_flag,
    h1, h2, h3, is_triggered_five, is_triggered_zero_signed]

lemma nf_falseD0 (s : AlarmSt) :
    newFlags ⟨some cfgDelay0, some 0, some 0, 20⟩ s = (false, false, false) := by
  cases h1 : s.alarmSolar <;> cases h2 : s.alarmHome <;> cases h3 : s.alarmGrid <;>
    simp [newFlags, cfgDelay0, derive_home, clearHystOf, next_flag,
      h1, h2, h3, is_triggered_zero_abs, is_triggered_zero_signed,
      is_cleared_zero_abs, is_cleared_zero_signed]

/-- A concrete reachable `Exiting` state: trigger at time 10 (Active), then
a non-alarmed pass at time 20 with clear_delay 0 (immediate `Exiting`). -/
def c5stExit : AlarmSt :=
  update ⟨some cfgDelay0, some 0, some 0, 20⟩
    (update ⟨some cfgDelay0, some 5, some 0, 10⟩ initAlarmSt)

lemma c5stExit_eval :
    c5stExit = ⟨AState.Exiting, 0, -1, 0xFF0000, 0, false, false, false⟩ := by
  have h1 : update ⟨some cfgDelay0, some 5, some 0, 10⟩ initAlarmSt =
      ⟨AState.Active, 0, 1, 0xFF0000, 0, true, true, false⟩ := by
    rw [update, nf_trigD0 initAlarmSt rfl rfl rfl]
    decide
  rw [c5stExit, h1, update, nf_falseD0]
  decide

/-- C5 witness: from the concrete reachable `Exiting` state at phase 0, one
tick terminates the alarm: state `Off`, phase 0, default peak color, flags
all false. -/
theorem c5_exiting_terminates_witness :
    (alarmTick (some cfgDelay0) 40 c5stExit).alarmState = AState.Off ∧
    (alarmTick (some cfgDelay0) 40 c5stExit).alarmPhase = 0 ∧
    (alarmTick (some cfgDelay0) 40 c5stExit).alarmPeakColor = lv_color_red ∧
    (alarmTick (some cfgDelay0) 40 c5stExit).alarmSolar = false ∧
    (alarmTick (some cfgDelay0) 40 c5stExit).alarmHome = false ∧
    (alarmTick (some cfgDelay0) 40 c5stExit).alarmGrid = false := by
  have hre : Reachable c5stExit := by
    rw [c5stExit]
    exact Reachable.step_update _ (Reachable.step_update _ Reachable.init)
  have h := c5_exiting_terminates (some cfgDelay0) 40 c5stExit hre
    (by rw [c5stExit_eval]) (by rw [c5stExit_eval])
  have hoff : (alarmTick (some cfgDelay0) 40 c5stExit).alarmState = AState.Off :=
    h.1.mpr (by rw [c5stExit_eval]; exact Nat.zero_le _)
  have h4 := h.2.2.2 hoff
  exact ⟨hoff, h4.1, h4.2.1, h4.2.2.2.1, h4.2.2.2.2.1, h4.2.2.2.2.2⟩

lemma tickStepActive_eq (cfg : DeviceConfig) (tick_ms : Nat)
    (hc1 : 200 ≤ cfg.energy_alarm_pulse_cycle_ms)
    (hc2 : cfg.energy_alarm_pulse_cycle_ms ≤ 10000)
    (ht2 : 2 * tick_ms ≤ cfg.energy_alarm_pulse_cycle_ms) :
    tickStepActive (some cfg) tick_ms =
      max 1 (roundQ ((510 * (tick_ms : ℚ)) /
        (cfg.energy_alarm_pulse_cycle_ms : ℚ))).toNat := by
  have hcy : clampCycle cfg.energy_alarm_pulse_cycle_ms = cfg.energy_alarm_pulse_cycle_ms := by
    unfold clampCycle
    rw [if_neg (by omega), if_neg (by omega)]
  have hpos : (0 : ℚ) < (cfg.energy_alarm_pulse_cycle_ms : ℚ) := by
    exact_mod_cast Nat.lt_of_lt_of_le (by norm_num) hc1
  have hle : (510 * (tick_ms : ℚ)) / (cfg.energy_alarm_pulse_cycle_ms : ℚ) ≤ 255 := by
    rw [div_le_iff₀ hpos]
    have hq : (2 * tick_ms : ℚ) ≤ (cfg.energy_alarm_pulse_cycle_ms : ℚ) := by
      exact_mod_cast ht2
    push_cast at hq ⊢
    linarith
  have hnn : (0 : ℚ) ≤ (510 * (tick_ms : ℚ)) / (cfg.energy_alarm_pulse_cycle_ms : ℚ) := by
    positivity
  have hfl : roundQ ((510 * (tick_ms : ℚ)) / (cfg.energy_alarm_pulse_cycle_ms : ℚ)) < 256 := by
    unfold roundQ
    exact Int.floor_lt.mpr (by push_cast; linarith)
  have hfnn : 0 ≤ roundQ ((510 * (tick_ms : ℚ)) / (cfg.energy_alarm_pulse_cycle_ms : ℚ)) := by
    unfold roundQ
    exact Int.floor_nonneg.mpr (by linarith)
  unfold tickStepActive
  simp only [Option.map_some', Option.getD_some]
  rw [hcy]
  have heq : (255 * 2 * (tick_ms : ℚ)) / (cfg.energy_alarm_pulse_cycle_ms : ℚ) =
      (510 * (tick_ms : ℚ)) / (cfg.energy_alarm_pulse_cycle_ms : ℚ) := by
    norm_num
  rw [heq]
  rw [Nat.mod_eq_of_lt (by omega)]
  rcases Nat.lt_or_ge (roundQ ((510 * (tick_ms : ℚ)) /
      (cfg.energy_alarm_pulse_cycle_ms : ℚ))).toNat 1 with h | h
  · rw [if_pos h]
    omega
  · rw [if_neg (by omega)]
    omega

/-- A state in the middle of an `Active` pulse climb: phase 0, direction
+1. -/
def stActive0 : AlarmSt := ⟨AState.Active, 0, 1, 0xFF0000, 0, true, false, false⟩

lemma tickStepActive_2000_40 : tickStepActive (some cfgDelay800) 40 = 10 := by
  rw [tickStepActive_eq cfgDelay800 40 (by decide) (by decide) (by decide)]
  have h : roundQ ((510 * ((40 : Nat) : ℚ)) /
      ((cfgDelay800.energy_alarm_pulse_cycle_ms : Nat) : ℚ)) = 10 := by
    show roundQ ((510 * ((40 : Nat) : ℚ)) / ((2000 : Nat) : ℚ)) = 10
    norm_num [roundQ, Int.floor_eq_iff]
  rw [h]
  decide

/-- C6: on an animation tick in state `Active` (with an in-range cycle
period and a tick short enough that the step fits in `uint8`), the phase
advances by `step = round(510 * tick_ms / cycle_ms)` with a minimum of 1,
clamped to [0, 255], the direction flips to -1 on reaching 255, and the
state stays `Active`; with cycle 2000 ms and tick 40 ms the step is 10 and
13 ticks from phase 0, direction +1 yield phase 130. -/
theorem c6_pulse_step (cfg : DeviceConfig) (tick_ms : Nat) (s : AlarmSt)
    (hc1 : 200 ≤ cfg.energy_alarm_pulse_cycle_ms)
    (hc2 : cfg.energy_alarm_pulse_cycle_ms ≤ 10000)
    (ht2 : 2 * tick_ms ≤ cfg.energy_alarm_pulse_cycle_ms)
    (hA : s.alarmState = AState.Active) :
    ((alarmTick (some cfg) tick_ms s).alarmPhase =
        (min 255 (max 0 ((s.alarmPhase : Int) + s.alarmDir *
          ((max 1 (roundQ ((510 * (tick_ms : ℚ)) /
            (cfg.energy_alarm_pulse_cycle_ms : ℚ))).toNat : Nat) : Int)))).toNat ∧
      (255 ≤ (s.alarmPhase : Int) + s.alarmDir *
          ((max 1 (roundQ ((510 * (tick_ms : ℚ)) /
            (cfg.energy_alarm_pulse_cycle_ms : ℚ))).toNat : Nat) : Int) →
        (alarmTick (some cfg) tick_ms s).alarmDir = -1) ∧
      (alarmTick (some cfg) tick_ms s).alarmState = AState.Active) ∧
    (((fun t => alarmTick (some cfgDelay800) 40 t)^[13] stActive0).alarmPhase = 130 ∧
     ((fun t => alarmTick (some cfgDelay800) 40 t)^[13] stActive0).alarmState =
       AState.Active) := by
  constructor
  · rw [alarmTick, tickStepActive_eq cfg tick_ms hc1 hc2 ht2]
    unfold tickCore
    dsimp only
    rw [if_neg (show ¬s.alarmState = AState.Off by rw [hA]; decide),
      if_neg (show ¬s.alarmState = AState.Exiting by rw [hA]; decide)]
    rcases le_or_lt (255 : Int) ((s.alarmPhase : Int) + s.alarmDir *
        ((max 1 (roundQ ((510 * (tick_ms : ℚ)) /
          (cfg.energy_alarm_pulse_cycle_ms : ℚ))).toNat : Nat) : Int)) with h255 | h255
    · rw [if_pos h255]
      refine ⟨?_, fun _ => rfl, hA⟩
      dsimp only
      omega
    · rw [if_neg (by omega)]
      rcases le_or_lt ((s.alarmPhase : Int) + s.alarmDir *
          ((max 1 (roundQ ((510 * (tick_ms : ℚ)) /
            (cfg.energy_alarm_pulse_cycle_ms : ℚ))).toNat : Nat) : Int)) 0 with h0 | h0
      · rw [if_pos h0, if_neg (show ¬s.alarmState = AState.Exiting by rw [hA]; decide)]
        refine ⟨?_, fun hc => absurd hc (by omega), hA⟩
        dsimp only
        omega
      · rw [if_neg (by omega)]
        refine ⟨?_, fun hc => absurd hc (by omega), hA⟩
        dsimp only
        omega
  · have hstep := tickStepActive_2000_40
    simp only [alarmTick, hstep]
    constructor
    · decide
    · decide

/-- C6 witness: one tick with cycle 2000 ms and tick 40 ms from phase 0,
direction +1 advances the phase to 10 = round(510*40/2000). -/
theorem c6_pulse_step_witness :
    (alarmTick (some cfgDelay800) 40 stActive0).alarmPhase = 10 := by
  have h := (c6_pulse_step cfgDelay800 40 stActive0
    (by decide) (by decide) (by decide) rfl).1.1
  rw [h]
  have hr : roundQ ((510 * ((40 : Nat) : ℚ)) /
      ((cfgDelay800.energy_alarm_pulse_cycle_ms : Nat) : ℚ)) = 10 := by
    show roundQ ((510 * ((40 : Nat) : ℚ)) / ((2000 : Nat) : ℚ)) = 10
    norm_num [roundQ, Int.floor_eq_iff]
  rw [hr]
  decide

end EnergyMon
